import Mathlib

/-!
Verification of the xHCI host-controller emulation
(`src/devices/src/usb/xhci/{mod,rings,regs,device}.rs`).

The Rust sources are shallowly embedded: machine integers become `Nat`
with explicit masking where the code masks, `VecDeque` becomes `List`
(push_back = append, pop_front = head), `Vec<T>` becomes `List T`,
`Option`/`Result` become `Option`/`Except`, and `Arc<Mutex<...>>`
sharing becomes explicit read/write-back on the owning structure
(`lock()` never fails in this model, matching the non-poisoned case).
The `dyn UsbDevice` trait object is represented by the invocation
counts of its methods (`reset`, `handle_transfer`), which is exactly
what the behavioural claims observe.
-/

set_option maxRecDepth 100000

set_option maxHeartbeats 1000000

namespace Xhci

/-- TRB size in bytes (`TRB_SIZE`). -/
def TRB_SIZE : Nat := 16

/-- TRB type tags (`TrbType` in rings.rs). -/
inductive TrbType where
  | EnableSlot
  | DisableSlot
  | AddressDevice
  | ConfigureEndpoint
  | EvaluateContext
  | ResetEndpoint
  | StopEndpoint
  | SetTrDequeue
  | ResetDevice
  | ForceEvent
  | NegotiateBandwidth
  | SetLatencyTolerance
  | GetPortBandwidth
  | ForceHeader
  | Noop
  | Normal
  | SetupStage
  | DataStage
  | StatusStage
  | Isoch
  | Link
  | EventData
  | NoopTransfer
  | TransferEvent
  | CommandCompletion
  | PortStatusChange
  | BandwidthRequest
  | Doorbell
  | HostController
  | DeviceNotification
  | MfindexWrap
deriving DecidableEq

/-- Discriminant of a TRB type (the `#[repr(u32)]` value). -/
def TrbType.toNat : TrbType → Nat
  | .EnableSlot => 9
  | .DisableSlot => 10
  | .AddressDevice => 11
  | .ConfigureEndpoint => 12
  | .EvaluateContext => 13
  | .ResetEndpoint => 14
  | .StopEndpoint => 15
  | .SetTrDequeue => 16
  | .ResetDevice => 17
  | .ForceEvent => 18
  | .NegotiateBandwidth => 19
  | .SetLatencyTolerance => 20
  | .GetPortBandwidth => 21
  | .ForceHeader => 22
  | .Noop => 23
  | .Normal => 1
  | .SetupStage => 2
  | .DataStage => 3
  | .StatusStage => 4
  | .Isoch => 5
  | .Link => 6
  | .EventData => 7
  | .NoopTransfer => 8
  | .TransferEvent => 32
  | .CommandCompletion => 33
  | .PortStatusChange => 34
  | .BandwidthRequest => 35
  | .Doorbell => 36
  | .HostController => 37
  | .DeviceNotification => 38
  | .MfindexWrap => 39

/-- Decoding of a TRB type tag (`TryFrom<u32> for TrbType`); unrecognized
codes are rejected (`Err`), modelled as `none`. -/
def TrbType.tryFrom : Nat → Option TrbType
  | 1 => some .Normal
  | 2 => some .SetupStage
  | 3 => some .DataStage
  | 4 => some .StatusStage
  | 5 => some .Isoch
  | 6 => some .Link
  | 7 => some .EventData
  | 8 => some .NoopTransfer
  | 9 => some .EnableSlot
  | 10 => some .DisableSlot
  | 11 => some .AddressDevice
  | 12 => some .ConfigureEndpoint
  | 13 => some .EvaluateContext
  | 14 => some .ResetEndpoint
  | 15 => some .StopEndpoint
  | 16 => some .SetTrDequeue
  | 17 => some .ResetDevice
  | 18 => some .ForceEvent
  | 19 => some .NegotiateBandwidth
  | 20 => some .SetLatencyTolerance
  | 21 => some .GetPortBandwidth
  | 22 => some .ForceHeader
  | 23 => some .Noop
  | 32 => some .TransferEvent
  | 33 => some .CommandCompletion
  | 34 => some .PortStatusChange
  | 35 => some .BandwidthRequest
  | 36 => some .Doorbell
  | 37 => some .HostController
  | 38 => some .DeviceNotification
  | 39 => some .MfindexWrap
  | _ => none

/-- TRB completion codes (`CompletionCode` in rings.rs). -/
inductive CompletionCode where
  | Success
  | Pending
  | Error
  | Stalled
  | TrbError
  | ShortPacket
  | UndefinedError
  | ResourceError
  | BandwidthError
  | NoSlotsAvailable
  | InvalidStreamType
  | SlotNotEnabled
  | EndpointNotEnabled
  | RingUnderrun
  | RingOverrun
  | VfEventRingFull
  | ParameterError
  | BandwidthOverrun
  | ContextStateError
  | NoPingResponse
  | EventRingFull
  | IncompatibleDevice
  | MissedService
  | CommandRingStopped
  | CommandAborted
  | Stopped
  | StoppedLengthInvalid
  | StoppedShortPacket
  | ExitLatencyTooLarge
  | IsochBufferOverrun
  | EventLost
  | UndefinedError2
  | InvalidStreamId
  | SecondaryBandwidth
  | SplitTransaction
deriving DecidableEq

/-- Discriminant of a completion code (the `#[repr(u32)]` value). -/
def CompletionCode.toNat : CompletionCode → Nat
  | .Success => 1
  | .Pending => 2
  | .Error => 3
  | .Stalled => 6
  | .TrbError => 5
  | .ShortPacket => 13
  | .UndefinedError => 4
  | .ResourceError => 7
  | .BandwidthError => 8
  | .NoSlotsAvailable => 9
  | .InvalidStreamType => 10
  | .SlotNotEnabled => 11
  | .EndpointNotEnabled => 12
  | .RingUnderrun => 14
  | .RingOverrun => 15
  | .VfEventRingFull => 16
  | .ParameterError => 17
  | .BandwidthOverrun => 18
  | .ContextStateError => 19
  | .NoPingResponse => 20
  | .EventRingFull => 21
  | .IncompatibleDevice => 22
  | .MissedService => 23
  | .CommandRingStopped => 24
  | .CommandAborted => 25
  | .Stopped => 26
  | .StoppedLengthInvalid => 27
  | .StoppedShortPacket => 28
  | .ExitLatencyTooLarge => 29
  | .IsochBufferOverrun => 31
  | .EventLost => 32
  | .UndefinedError2 => 33
  | .InvalidStreamId => 34
  | .SecondaryBandwidth => 35
  | .SplitTransaction => 36

/-- Transfer Request Block (`Trb`): 16 bytes, `parameter: u64`,
`status: u32`, `control: u32`. -/
structure Trb where
  parameter : Nat
  status : Nat
  control : Nat
deriving DecidableEq

/-- Constructor `Trb::new`. -/
def Trb.new (parameter status control : Nat) : Trb :=
  { parameter := parameter, status := status, control := control }

/-- Method `Trb::trb_type`: decodes `(control >> 10) & 0x3F`. -/
def Trb.trbType (t : Trb) : Option TrbType :=
  TrbType.tryFrom ((t.control >>> 10) &&& 0x3F)

/-- Method `Trb::set_trb_type`: `control = (control & !(0x3F << 10)) | (ty << 10)`
(the u32 complement of `0x3F << 10` is `0xFFFF03FF`). -/
def Trb.setTrbType (t : Trb) (ty : TrbType) : Trb :=
  { t with control := (t.control &&& 0xFFFF03FF) ||| (ty.toNat <<< 10) }

/-- Method `Trb::cycle_bit`: `control & 1 != 0`. -/
def Trb.cycleBit (t : Trb) : Bool :=
  t.control &&& 1 != 0

/-- Method `Trb::set_cycle_bit` (the u32 complement of `1` is `0xFFFFFFFE`). -/
def Trb.setCycleBit (t : Trb) (cycle : Bool) : Trb :=
  if cycle then { t with control := t.control ||| 1 }
  else { t with control := t.control &&& 0xFFFFFFFE }

/-- Method `Trb::is_last`: `(control >> 1) & 1 != 0`. -/
def Trb.isLast (t : Trb) : Bool :=
  (t.control >>> 1) &&& 1 != 0

/-- Method `Trb::completion_code`: `(status >> 24) & 0xFF`. -/
def Trb.completionCodeField (t : Trb) : Nat :=
  (t.status >>> 24) &&& 0xFF

/-- Method `Trb::set_completion_code`:
`status = (status & !(0xFF << 24)) | (code << 24)` (the u32 complement
of `0xFF << 24` is `0x00FFFFFF`). -/
def Trb.setCompletionCode (t : Trb) (code : CompletionCode) : Trb :=
  { t with status := (t.status &&& 0x00FFFFFF) ||| (code.toNat <<< 24) }

/-- Method `Trb::transfer_length`: `status & 0x1FFFF`. -/
def Trb.transferLength (t : Trb) : Nat :=
  t.status &&& 0x1FFFF

/-- Method `Trb::as_bytes`: the 16-byte little-endian encoding —
bytes 0..8 are `parameter.to_le_bytes()`, bytes 8..12 are
`status.to_le_bytes()`, bytes 12..16 are `control.to_le_bytes()`.
Each byte is spelled out as `value / 2^(8*i) % 256`, the defining
equation of Rust's `to_le_bytes`. -/
def Trb.asBytes (t : Trb) : List Nat :=
  [ t.parameter % 256,
    t.parameter / 256 % 256,
    t.parameter / 65536 % 256,
    t.parameter / 16777216 % 256,
    t.parameter / 4294967296 % 256,
    t.parameter / 1099511627776 % 256,
    t.parameter / 281474976710656 % 256,
    t.parameter / 72057594037927936 % 256,
    t.status % 256,
    t.status / 256 % 256,
    t.status / 65536 % 256,
    t.status / 16777216 % 256,
    t.control % 256,
    t.control / 256 % 256,
    t.control / 65536 % 256,
    t.control / 16777216 % 256 ]

/-- Method `Trb::from_bytes`: little-endian reassembly of the three
fields from a 16-byte buffer (`u64::from_le_bytes` on bytes 0..8,
`u32::from_le_bytes` on bytes 8..12 and 12..16). -/
def Trb.fromBytes (bs : List Nat) : Trb :=
  { parameter :=
      bs.getD 0 0 + 256 * bs.getD 1 0 + 65536 * bs.getD 2 0 +
      16777216 * bs.getD 3 0 + 4294967296 * bs.getD 4 0 +
      1099511627776 * bs.getD 5 0 + 281474976710656 * bs.getD 6 0 +
      72057594037927936 * bs.getD 7 0,
    status :=
      bs.getD 8 0 + 256 * bs.getD 9 0 + 65536 * bs.getD 10 0 +
      16777216 * bs.getD 11 0,
    control :=
      bs.getD 12 0 + 256 * bs.getD 13 0 + 65536 * bs.getD 14 0 +
      16777216 * bs.getD 15 0 }

-- ============================================================================

-- Rings (rings.rs): CommandRing, EventRing, TransferRing

-- ============================================================================

/-- Command Ring state (`CommandRingState`). -/
inductive CommandRingState where
  | Stopped
  | Running
  | Aborted
deriving DecidableEq

/-- Command Ring (`CommandRing`); `pending` models the `VecDeque<Trb>`. -/
structure CommandRing where
  base : Nat
  size : Nat
  enqueue : Nat
  cycle : Bool
  state : CommandRingState
  pending : List Trb
deriving DecidableEq

/-- Constructor `CommandRing::new`. -/
def CommandRing.new : CommandRing :=
  { base := 0, size := 256, enqueue := 0, cycle := true,
    state := .Stopped, pending := [] }

/-- Method `CommandRing::init`: unconditionally installs `base`/`size`,
resets the cursor and cycle bit, and sets the state to Running; it
performs no validation of its arguments. -/
def CommandRing.init (r : CommandRing) (base size : Nat) : CommandRing :=
  { r with
    base := base, size := size, enqueue := base, cycle := true,
    state := .Running }

/-- Method `CommandRing::queue` (`push_back` on the pending deque). -/
def CommandRing.queue (r : CommandRing) (trb : Trb) : CommandRing :=
  { r with pending := r.pending ++ [trb] }

/-- Method `CommandRing::next` (`pop_front`), returned together with
the updated ring. -/
def CommandRing.next (r : CommandRing) : Option Trb × CommandRing :=
  match r.pending with
  | [] => (none, r)
  | t :: rest => (some t, { r with pending := rest })

/-- Method `CommandRing::is_running`. -/
def CommandRing.isRunning (r : CommandRing) : Bool :=
  decide (r.state = CommandRingState.Running)

/-- Method `CommandRing::create_completion_event`: builds a
CommandCompletion TRB whose `parameter` is copied from
`command.parameter`, carrying the completion code and slot id in
`status`, with the cycle bit set. -/
def CommandRing.createCompletionEvent (_self : CommandRing) (command : Trb)
    (slotId : Nat) (code : CompletionCode) : Trb :=
  let event := Trb.new command.parameter 0 0
  let event := event.setTrbType .CommandCompletion
  let event := event.setCompletionCode code
  let event := { event with status := event.status ||| slotId }
  event.setCycleBit true

/-- Event Ring Segment Table entry (`EventRingSegment`); the reserved
padding bytes, never read or written, are omitted. -/
structure EventRingSegment where
  base : Nat
  size : Nat
deriving DecidableEq

/-- Constructor `EventRingSegment::new`. -/
def EventRingSegment.new (base size : Nat) : EventRingSegment :=
  { base := base, size := size }

/-- Event Ring (`EventRing`). -/
structure EventRing where
  segments : List EventRingSegment
  segmentIdx : Nat
  dequeueIdx : Nat
  cycle : Bool
  pending : List Trb
deriving DecidableEq

/-- Constructor `EventRing::new`. -/
def EventRing.new : EventRing :=
  { segments := [], segmentIdx := 0, dequeueIdx := 0, cycle := true,
    pending := [] }

/-- Method `EventRing::set_segments`. -/
def EventRing.setSegments (r : EventRing) (segments : List EventRingSegment) :
    EventRing :=
  { r with segments := segments, segmentIdx := 0, dequeueIdx := 0 }

/-- Method `EventRing::queue`: stamps the producer cycle bit onto the
event and appends it; then, if `dequeue_idx >= segment.size - 1` holds
for the current segment, resets `dequeue_idx` to 0, advances
`segment_idx` (wrapping) and flips the producer cycle bit. Note the
function never advances `dequeue_idx` itself. The Rust method also
returns a constant `true`, omitted here; `segment.size as usize - 1`
is modelled with truncated subtraction (sizes considered are nonzero). -/
def EventRing.queue (r : EventRing) (event : Trb) : EventRing :=
  let stamped := event.setCycleBit r.cycle
  let r1 := { r with pending := r.pending ++ [stamped] }
  match r1.segments[r1.segmentIdx]? with
  | some segment =>
      if segment.size - 1 ≤ r1.dequeueIdx then
        { r1 with
          dequeueIdx := 0,
          segmentIdx := (r1.segmentIdx + 1) % r1.segments.length,
          cycle := !r1.cycle }
      else r1
  | none => r1

/-- Method `EventRing::next` (`pop_front`). -/
def EventRing.next (r : EventRing) : Option Trb × EventRing :=
  match r.pending with
  | [] => (none, r)
  | t :: rest => (some t, { r with pending := rest })

/-- Method `EventRing::has_pending`. -/
def EventRing.hasPending (r : EventRing) : Bool :=
  !r.pending.isEmpty

/-- Transfer Ring (`TransferRing`). -/
structure TransferRing where
  epId : Nat
  base : Nat
  size : Nat
  enqueue : Nat
  dequeue : Nat
  pcs : Bool
  ccs : Bool
  pending : List Trb
deriving DecidableEq

/-- Constructor `TransferRing::new`. -/
def TransferRing.new (epId : Nat) : TransferRing :=
  { epId := epId, base := 0, size := 256, enqueue := 0, dequeue := 0,
    pcs := true, ccs := true, pending := [] }

/-- Method `TransferRing::init`: unconditionally installs `base`/`size`
and resets both cycle states; it performs no validation. -/
def TransferRing.init (r : TransferRing) (base size : Nat) : TransferRing :=
  { r with
    base := base, size := size, enqueue := base, dequeue := base,
    pcs := true, ccs := true }

/-- Method `TransferRing::set_dequeue_ptr`. -/
def TransferRing.setDequeuePtr (r : TransferRing) (ptr : Nat) (cycle : Bool) :
    TransferRing :=
  { r with dequeue := ptr, ccs := cycle }

/-- Method `TransferRing::queue` (`push_back`). -/
def TransferRing.queue (r : TransferRing) (trb : Trb) : TransferRing :=
  { r with pending := r.pending ++ [trb] }

/-- Method `TransferRing::next` (`pop_front`). -/
def TransferRing.next (r : TransferRing) : Option Trb × TransferRing :=
  match r.pending with
  | [] => (none, r)
  | t :: rest => (some t, { r with pending := rest })

/-- Method `TransferRing::has_pending`. -/
def TransferRing.hasPending (r : TransferRing) : Bool :=
  !r.pending.isEmpty

/-- Method `TransferRing::create_transfer_event`. -/
def TransferRing.createTransferEvent (_self : TransferRing) (trb : Trb)
    (code : CompletionCode) (length : Nat) : Trb :=
  let event := Trb.new trb.parameter 0 0
  let event := event.setTrbType .TransferEvent
  let event := event.setCompletionCode code
  let event := { event with status := event.status ||| length }
  event.setCycleBit true

-- ============================================================================

-- Registers (regs.rs)

-- ============================================================================

/-- Controller-level constants from mod.rs. -/
def XHCI_VERSION : Nat := 0x0100

/-- Maximum number of device slots (`XHCI_MAX_SLOTS`). -/
def XHCI_MAX_SLOTS : Nat := 32

/-- Maximum number of interrupters (`XHCI_MAX_INTRS`). -/
def XHCI_MAX_INTRS : Nat := 8

/-- Maximum number of ports (`XHCI_MAX_PORTS`). -/
def XHCI_MAX_PORTS : Nat := 8

/-- Controller operational states (`XhciState` in mod.rs). -/
inductive XhciState where
  | Halted
  | Running
  | Error
  | Reset
deriving DecidableEq

/-- USBCMD register bit `USBCMD_RS` (Run/Stop). -/
def USBCMD_RS : Nat := 1

/-- USBCMD register bit `USBCMD_HCRST` (Host Controller Reset). -/
def USBCMD_HCRST : Nat := 2

/-- USBSTS register bit `USBSTS_HCH` (HCHalted). -/
def USBSTS_HCH : Nat := 1

/-- USBSTS register bit `USBSTS_EINT` (Event Interrupt). -/
def USBSTS_EINT : Nat := 8

/-- USBSTS register bit `USBSTS_PCD` (Port Change Detected). -/
def USBSTS_PCD : Nat := 16

/-- USBSTS register bit `USBSTS_SRE` (Save/Restore Error). -/
def USBSTS_SRE : Nat := 1024

/-- USBSTS register bit `USBSTS_CNR` (Controller Not Ready). -/
def USBSTS_CNR : Nat := 2048

/-- USBSTS register bit `USBSTS_HCE` (Host Controller Error). -/
def USBSTS_HCE : Nat := 4096

/-- PORTSC bit constants from regs.rs. -/
def PORTSC_CCS : Nat := 1

/-- PORTSC Port Enable/Disable bit. -/
def PORTSC_PED : Nat := 2

/-- PORTSC Port Reset bit. -/
def PORTSC_PR : Nat := 16

/-- PORTSC Port Link State mask. -/
def PORTSC_PLS_MASK : Nat := 0xF <<< 5

/-- PORTSC Port Power bit. -/
def PORTSC_PP : Nat := 512

/-- PORTSC Port Link State Write Strobe bit. -/
def PORTSC_LWS : Nat := 65536

/-- PORTSC Connect Status Change bit. -/
def PORTSC_CSC : Nat := 1 <<< 17

/-- PORTSC Port Enable/Disable Change bit. -/
def PORTSC_PEC : Nat := 1 <<< 18

/-- PORTSC Warm Port Reset Change bit. -/
def PORTSC_WRC : Nat := 1 <<< 19

/-- PORTSC Over-current Change bit. -/
def PORTSC_OCC : Nat := 1 <<< 20

/-- PORTSC Port Reset Change bit. -/
def PORTSC_PRC : Nat := 1 <<< 21

/-- PORTSC Port Link State Change bit. -/
def PORTSC_PLC : Nat := 1 <<< 22

/-- PORTSC Port Config Error Change bit. -/
def PORTSC_CEC : Nat := 1 <<< 23

/-- PORTSC Warm Port Reset bit. -/
def PORTSC_WPR : Nat := 1 <<< 31

/-- Port Status and Control register set (`PortRegister`); the reserved
dword, never read or written, is omitted. The `AtomicU32` cells are
plain values in this sequential model. -/
structure PortRegister where
  portsc : Nat
  portpmsc : Nat
  portli : Nat
deriving DecidableEq

/-- The derived `Default` for `PortRegister`. -/
def PortRegister.mkDefault : PortRegister :=
  { portsc := 0, portpmsc := 0, portli := 0 }

/-- Method `PortRegister::read`. -/
def PortRegister.read (r : PortRegister) (offset : Nat) : Nat :=
  if offset = 0x00 then r.portsc
  else if offset = 0x04 then r.portpmsc
  else if offset = 0x08 then r.portli
  else 0

/-- Method `PortRegister::write`: on PORTSC the `value`-selected status
change bits are cleared (write-1-to-clear) and the RW bits take their
written values; `current & !clear_mask` is the u32 complement, modelled
as `&&& (0xFFFFFFFF ^^^ clearMask)`. Other offsets are plain stores or
are ignored. -/
def PortRegister.write (r : PortRegister) (offset value : Nat) : PortRegister :=
  if offset = 0x00 then
    let clearMask := value &&& (PORTSC_CSC ||| PORTSC_PEC ||| PORTSC_WRC |||
      PORTSC_OCC ||| PORTSC_PRC ||| PORTSC_PLC ||| PORTSC_CEC)
    let newVal := (r.portsc &&& (0xFFFFFFFF ^^^ clearMask)) |||
      (value &&& (PORTSC_PED ||| PORTSC_PR ||| PORTSC_PLS_MASK |||
        PORTSC_LWS ||| PORTSC_PP ||| PORTSC_WPR))
    { r with portsc := newVal }
  else if offset = 0x04 then { r with portpmsc := value }
  else if offset = 0x08 then { r with portli := value }
  else r

/-- Method `PortRegister::set_connected`. -/
def PortRegister.setConnected (r : PortRegister) (connected : Bool) :
    PortRegister :=
  let newVal :=
    if connected then
      r.portsc ||| PORTSC_CCS ||| PORTSC_CSC ||| PORTSC_PP ||| (4 <<< 10)
    else r.portsc &&& (0xFFFFFFFF ^^^ PORTSC_CCS)
  { r with portsc := newVal ||| PORTSC_CSC }

/-- Operational register bank (`OperationalRegisters`). -/
structure OperationalRegisters where
  usbcmd : Nat
  usbsts : Nat
  pgsz : Nat
  dnctrl : Nat
  crcr : Nat
  dcbaap : Nat
  config : Nat
  ports : List PortRegister
deriving DecidableEq

/-- The `Default` impl for `OperationalRegisters`: controller halted,
4KB page size, `XHCI_MAX_PORTS` ports. -/
def OperationalRegisters.mkDefault : OperationalRegisters :=
  { usbcmd := 0, usbsts := USBSTS_HCH, pgsz := 0x1000, dnctrl := 0,
    crcr := 0, dcbaap := 0, config := 0,
    ports := List.replicate XHCI_MAX_PORTS PortRegister.mkDefault }

/-- Method `OperationalRegisters::read`. -/
def OperationalRegisters.read (r : OperationalRegisters) (offset : Nat) : Nat :=
  if offset = 0x00 then r.usbcmd
  else if offset = 0x04 then r.usbsts
  else if offset = 0x08 then r.pgsz
  else if offset = 0x0C then r.dnctrl
  else if 0x10 ≤ offset ∧ offset ≤ 0x17 then r.crcr
  else if 0x30 ≤ offset ∧ offset ≤ 0x37 then r.dcbaap
  else if offset = 0x38 then r.config
  else if 0x400 ≤ offset then
    match r.ports[(offset - 0x400) / 0x10]? with
    | some p => p.read ((offset - 0x400) % 0x10)
    | none => 0
  else 0

/-- Method `OperationalRegisters::handle_usbcmd`. On HCRST the state is
driven through Reset and ends Halted, USBSTS/CRCR/DCBAAP are reset and
`usbcmd` is not stored; otherwise a Run/Stop edge updates state and
USBSTS, and `usbcmd` is stored. -/
def OperationalRegisters.handleUsbcmd (r : OperationalRegisters)
    (value : Nat) (state : XhciState) : OperationalRegisters × XhciState :=
  if value &&& USBCMD_HCRST ≠ 0 then
    ({ r with usbsts := USBSTS_HCH ||| USBSTS_CNR, crcr := 0, dcbaap := 0 },
      XhciState.Halted)
  else
    let (r1, st1) :=
      if (value ^^^ r.usbcmd) &&& USBCMD_RS ≠ 0 then
        if value &&& USBCMD_RS ≠ 0 then
          ({ r with usbsts := USBSTS_CNR }, XhciState.Running)
        else ({ r with usbsts := USBSTS_HCH }, XhciState.Halted)
      else (r, state)
    ({ r1 with usbcmd := value }, st1)

/-- Method `OperationalRegisters::write` (USBSTS is write-1-to-clear on
its four clearable bits; CRCR updates only the low byte; PGSZ has no
write arm). -/
def OperationalRegisters.write (r : OperationalRegisters)
    (offset value : Nat) (state : XhciState) :
    OperationalRegisters × XhciState :=
  if offset = 0x00 then r.handleUsbcmd value state
  else if offset = 0x04 then
    let clearBits := value &&& (USBSTS_EINT ||| USBSTS_PCD ||| USBSTS_SRE |||
      USBSTS_HCE)
    ({ r with usbsts := r.usbsts &&& (0xFFFFFFFF ^^^ clearBits) }, state)
  else if offset = 0x0C then ({ r with dnctrl := value }, state)
  else if 0x10 ≤ offset ∧ offset ≤ 0x17 then
    ({ r with crcr := (r.crcr &&& 0xFFFFFF00) ||| (value &&& 0xFF) }, state)
  else if 0x30 ≤ offset ∧ offset ≤ 0x37 then
    ({ r with dcbaap := value }, state)
  else if offset = 0x38 then ({ r with config := value }, state)
  else if 0x400 ≤ offset then
    match r.ports[(offset - 0x400) / 0x10]? with
    | some p =>
        ({ r with
            ports := r.ports.set ((offset - 0x400) / 0x10)
              (p.write ((offset - 0x400) % 0x10) value) }, state)
    | none => (r, state)
  else (r, state)

/-- Method `OperationalRegisters::set_port_connected`. -/
def OperationalRegisters.setPortConnected (r : OperationalRegisters)
    (port : Nat) (connected : Bool) : OperationalRegisters :=
  match r.ports[port]? with
  | some p => { r with ports := r.ports.set port (p.setConnected connected) }
  | none => r

/-- IMAN Interrupt Enable bit (`IMAN_IE`). -/
def IMAN_IE : Nat := 2

/-- IMAN Interrupt Pending bit (`IMAN_IP`). -/
def IMAN_IP : Nat := 1

/-- Interrupter register set (`InterrupterRegister`); the two reserved
dwords, never read or written, are omitted. -/
structure InterrupterRegister where
  iman : Nat
  imod : Nat
  erstsz : Nat
  erstba : Nat
  erdp : Nat
deriving DecidableEq

/-- The derived `Default` for `InterrupterRegister`. -/
def InterrupterRegister.mkDefault : InterrupterRegister :=
  { iman := 0, imod := 0, erstsz := 0, erstba := 0, erdp := 0 }

/-- Method `InterrupterRegister::read`. -/
def InterrupterRegister.read (r : InterrupterRegister) (offset : Nat) : Nat :=
  if offset = 0x00 then r.iman
  else if offset = 0x04 then r.imod
  else if offset = 0x08 then r.erstsz
  else if offset = 0x10 then r.erstba
  else if offset = 0x18 then r.erdp
  else 0

/-- Method `InterrupterRegister::write`. On IMAN the stored value is
`(current & !IMAN_IP) | (value & IMAN_IE)` — so the IP bit is cleared
on every write regardless of the written bit 0, and bit 1 becomes the
OR of the current IE (kept by `!IMAN_IP`) with the written IE; the
`if value & IMAN_IP != 0` conditional in the source has an empty body.
The u32 complement of `IMAN_IP` is `0xFFFFFFFE`. -/
def InterrupterRegister.write (r : InterrupterRegister)
    (offset value : Nat) : InterrupterRegister :=
  if offset = 0x00 then
    { r with iman := (r.iman &&& 0xFFFFFFFE) ||| (value &&& IMAN_IE) }
  else if offset = 0x04 then { r with imod := value }
  else if offset = 0x08 then { r with erstsz := value }
  else if offset = 0x10 then { r with erstba := value }
  else if offset = 0x18 then { r with erdp := value }
  else r

/-- Runtime register bank (`RuntimeRegisters`). -/
structure RuntimeRegisters where
  mfindex : Nat
  interrupters : List InterrupterRegister
deriving DecidableEq

/-- The derived `Default` for `RuntimeRegisters` — note it leaves the
interrupter vector empty; `XhciController::new` uses this default
rather than `RuntimeRegisters::new`. -/
def RuntimeRegisters.mkDefault : RuntimeRegisters :=
  { mfindex := 0, interrupters := [] }

/-- Constructor `RuntimeRegisters::new`: `XHCI_MAX_INTRS` interrupters. -/
def RuntimeRegisters.mkNew : RuntimeRegisters :=
  { mfindex := 0,
    interrupters := List.replicate XHCI_MAX_INTRS InterrupterRegister.mkDefault }

/-- Method `RuntimeRegisters::read`. -/
def RuntimeRegisters.read (r : RuntimeRegisters) (offset : Nat) : Nat :=
  if offset = 0x00 then r.mfindex
  else if 0x20 ≤ offset then
    match r.interrupters[(offset - 0x20) / 0x20]? with
    | some i => i.read ((offset - 0x20) % 0x20)
    | none => 0
  else 0

/-- Method `RuntimeRegisters::write`; MFINDEX is read-only. -/
def RuntimeRegisters.write (r : RuntimeRegisters) (offset value : Nat) :
    RuntimeRegisters :=
  if offset = 0x00 then r
  else if 0x20 ≤ offset then
    match r.interrupters[(offset - 0x20) / 0x20]? with
    | some i =>
        { r with
            interrupters := r.interrupters.set ((offset - 0x20) / 0x20)
              (i.write ((offset - 0x20) % 0x20) value) }
    | none => r
  else r

/-- Doorbell register (`DoorbellRegister`): only the low byte (target)
is stored. -/
structure DoorbellRegister where
  target : Nat
deriving DecidableEq

/-- Method `DoorbellRegister::write`. -/
def DoorbellRegister.write (r : DoorbellRegister) (value : Nat) :
    DoorbellRegister :=
  { r with target := value &&& 0xFF }

/-- Method `DoorbellRegister::read`. -/
def DoorbellRegister.read (r : DoorbellRegister) : Nat :=
  r.target

/-- Capability registers (`CapabilityRegisters`); the HCSPARAMS and
HCCPARAMS newtype wrappers are inlined as packed u32 values. -/
structure CapabilityRegisters where
  hciversion : Nat
  hcsparams1 : Nat
  hcsparams2 : Nat
  hcsparams3 : Nat
  hccparams1 : Nat
  dboff : Nat
  rtsoff : Nat
  hccparams2 : Nat
deriving DecidableEq

/-- Constructor `CapabilityRegisters::new`, with `HcsParams1::new`
packing slots/interrupters/ports into HCSPARAMS1. -/
def CapabilityRegisters.mkNew (maxSlots maxIntrs maxPorts : Nat) :
    CapabilityRegisters :=
  { hciversion := XHCI_VERSION,
    hcsparams1 := maxSlots ||| (maxIntrs <<< 8) ||| (maxPorts <<< 24),
    hcsparams2 := 0, hcsparams3 := 0, hccparams1 := 0,
    dboff := 0x1000, rtsoff := 0x2000, hccparams2 := 0 }

/-- Offsets of the operational bank that map to a register, read off
the match arms of `OperationalRegisters::read`/`write`: USBCMD, USBSTS,
PGSZ, DNCTRL, CRCR, DCBAAP, CONFIG, and the three mapped dwords of each
of the `numPorts` configured ports. -/
def opRegisterAt (numPorts offset : Nat) : Bool :=
  decide (offset = 0x00 ∨ offset = 0x04 ∨ offset = 0x08 ∨ offset = 0x0C ∨
    (0x10 ≤ offset ∧ offset ≤ 0x17) ∨ (0x30 ≤ offset ∧ offset ≤ 0x37) ∨
    offset = 0x38 ∨
    (0x400 ≤ offset ∧ (offset - 0x400) / 0x10 < numPorts ∧
      ((offset - 0x400) % 0x10 = 0x00 ∨ (offset - 0x400) % 0x10 = 0x04 ∨
        (offset - 0x400) % 0x10 = 0x08)))

/-- Offsets of the runtime bank that map to a register: MFINDEX and the
five mapped dwords of each of the `numIntrs` present interrupters. -/
def rtRegisterAt (numIntrs offset : Nat) : Bool :=
  decide (offset = 0x00 ∨
    (0x20 ≤ offset ∧ (offset - 0x20) / 0x20 < numIntrs ∧
      ((offset - 0x20) % 0x20 = 0x00 ∨ (offset - 0x20) % 0x20 = 0x04 ∨
        (offset - 0x20) % 0x20 = 0x08 ∨ (offset - 0x20) % 0x20 = 0x10 ∨
        (offset - 0x20) % 0x20 = 0x18)))

-- ============================================================================

-- Device slot (device.rs)

-- ============================================================================

/-- USB device speeds (`UsbSpeed`). -/
inductive UsbSpeed where
  | Full
  | High
  | Super
deriving DecidableEq

/-- Stand-in for a `dyn UsbDevice` trait object: the behavioural claims
observe only which trait methods the slot invokes, so a device is
modelled by its invocation counts for `reset` and `handle_transfer`. -/
structure UsbDev where
  resetCalls : Nat
  transferCalls : Nat
deriving DecidableEq

/-- Trait call `UsbDevice::reset` (observable effect: one invocation). -/
def UsbDev.reset (d : UsbDev) : UsbDev :=
  { d with resetCalls := d.resetCalls + 1 }

/-- Trait call `UsbDevice::handle_transfer` (observable effect: one
invocation). -/
def UsbDev.handleTransfer (d : UsbDev) : UsbDev :=
  { d with transferCalls := d.transferCalls + 1 }

/-- Slot states (`SlotState`). -/
inductive SlotState where
  | Disabled
  | Default
  | Addressed
  | Configured
deriving DecidableEq

/-- Discriminant of a slot state (`#[repr(u8)]`). -/
def SlotState.toNat : SlotState → Nat
  | .Disabled => 0
  | .Default => 1
  | .Addressed => 2
  | .Configured => 3

/-- Slot Context (`SlotContext`); the reserved dwords are omitted. -/
structure SlotContext where
  routeString : Nat
  usbDevAddr : Nat
  slotState : Nat
  interrupterTarget : Nat
  usbDevSpeed : Nat
  numPorts : Nat
  hubTtTime : Nat
  ttThinkTime : Nat
  maxExitLatency : Nat
  targetExitLatency : Nat
  slotId : Nat
deriving DecidableEq

/-- The derived `Default` for `SlotContext` (also `SlotContext::new`). -/
def SlotContext.mkDefault : SlotContext :=
  { routeString := 0, usbDevAddr := 0, slotState := 0,
    interrupterTarget := 0, usbDevSpeed := 0, numPorts := 0,
    hubTtTime := 0, ttThinkTime := 0, maxExitLatency := 0,
    targetExitLatency := 0, slotId := 0 }

/-- Method `SlotContext::state`: decodes `slot_state & 0x0F`, mapping
unknown encodings to Disabled. -/
def SlotContext.state (c : SlotContext) : SlotState :=
  match c.slotState &&& 0x0F with
  | 0 => .Disabled
  | 1 => .Default
  | 2 => .Addressed
  | 3 => .Configured
  | _ => .Disabled

/-- Method `SlotContext::set_state`:
`slot_state = (slot_state & 0xF0) | state`. -/
def SlotContext.setState (c : SlotContext) (s : SlotState) : SlotContext :=
  { c with slotState := (c.slotState &&& 0xF0) ||| s.toNat }

/-- Method `SlotContext::device_address`. -/
def SlotContext.deviceAddress (c : SlotContext) : Nat :=
  c.usbDevAddr

/-- Method `SlotContext::set_device_address`. -/
def SlotContext.setDeviceAddress (c : SlotContext) (addr : Nat) : SlotContext :=
  { c with usbDevAddr := addr }

/-- Endpoint Context (`EndpointContext`), fields as in device.rs. -/
structure EndpointContext where
  epState : Nat
  mult : Nat
  maxStreams : Nat
  lsa : Nat
  interval : Nat
  maxEsitPayloadHi : Nat
  hid : Nat
  maxBurstSize : Nat
  maxPacketSize : Nat
  maxEsitPayloadLo : Nat
  epType : Nat
  averageTrbLength : Nat
  maxEsitPayload : Nat
  trDequeue : Nat
  dcs : Nat
  maxPrimaryStreams : Nat
  linearStreamArray : Nat
  pendingType : Nat
  modLoop : Nat
  pendingType2 : Nat
  ce : Nat
deriving DecidableEq

/-- The derived `Default` for `EndpointContext`. -/
def EndpointContext.mkDefault : EndpointContext :=
  { epState := 0, mult := 0, maxStreams := 0, lsa := 0, interval := 0,
    maxEsitPayloadHi := 0, hid := 0, maxBurstSize := 0, maxPacketSize := 0,
    maxEsitPayloadLo := 0, epType := 0, averageTrbLength := 0,
    maxEsitPayload := 0, trDequeue := 0, dcs := 0, maxPrimaryStreams := 0,
    linearStreamArray := 0, pendingType := 0, modLoop := 0,
    pendingType2 := 0, ce := 0 }

/-- Device Context (`DeviceContext`). -/
structure DeviceContext where
  slot : SlotContext
  endpoints : List EndpointContext
deriving DecidableEq

/-- Constructor `DeviceContext::new`: default slot context plus
`num_endpoints + 1` default endpoint contexts. -/
def DeviceContext.mkNew (numEndpoints : Nat) : DeviceContext :=
  { slot := SlotContext.mkDefault,
    endpoints := List.replicate (numEndpoints + 1) EndpointContext.mkDefault }

/-- Device slot (`XhciDeviceSlot`). -/
structure XhciDeviceSlot where
  slotId : Nat
  context : DeviceContext
  device : Option UsbDev
  transferRings : List (Option TransferRing)
deriving DecidableEq

/-- Constructor `XhciDeviceSlot::new`: context with 31 endpoints and 32
empty transfer-ring slots. -/
def XhciDeviceSlot.mkNew (slotId : Nat) (device : UsbDev) : XhciDeviceSlot :=
  { slotId := slotId, context := DeviceContext.mkNew 31,
    device := some device, transferRings := List.replicate 32 none }

/-- Method `XhciDeviceSlot::ring_ep`: for an in-range endpoint with an
installed ring, the `while let Some(_trb) = ring.next()` loop pops
every pending TRB; the loop body is empty — it invokes no device
transfer handler and produces no event — so the net effect is an
emptied pending queue. Out-of-range endpoints and missing rings are
no-ops. -/
def XhciDeviceSlot.ringEp (s : XhciDeviceSlot) (epId : Nat) : XhciDeviceSlot :=
  if epId < s.transferRings.length then
    match s.transferRings.getD epId none with
    | some ring =>
        { s with
          transferRings :=
            s.transferRings.set epId (some { ring with pending := [] }) }
    | none => s
  else s

/-- Method `XhciDeviceSlot::init_ep_ring`. -/
def XhciDeviceSlot.initEpRing (s : XhciDeviceSlot) (epId base size : Nat) :
    XhciDeviceSlot :=
  if epId < s.transferRings.length then
    { s with
      transferRings :=
        s.transferRings.set epId
          (some ((TransferRing.new epId).init base size)) }
  else s

/-- Method `XhciDeviceSlot::set_state`. -/
def XhciDeviceSlot.setState (s : XhciDeviceSlot) (st : SlotState) :
    XhciDeviceSlot :=
  { s with context := { s.context with slot := s.context.slot.setState st } }

/-- Method `XhciDeviceSlot::state`. -/
def XhciDeviceSlot.state (s : XhciDeviceSlot) : SlotState :=
  s.context.slot.state

/-- Method `XhciDeviceSlot::set_address`. -/
def XhciDeviceSlot.setAddress (s : XhciDeviceSlot) (addr : Nat) :
    XhciDeviceSlot :=
  { s with
    context := { s.context with slot := s.context.slot.setDeviceAddress addr } }

/-- Method `XhciDeviceSlot::address`. -/
def XhciDeviceSlot.address (s : XhciDeviceSlot) : Nat :=
  s.context.slot.deviceAddress

/-- Method `XhciDeviceSlot::handle_command`, the slot-level command
handler (mod.rs invokes it with an extra allocator argument that this
definition — following device.rs — does not consume): AddressDevice
sets state Addressed and the fixed address 1; ConfigureEndpoint,
EvaluateContext, ResetEndpoint and StopEndpoint acknowledge Success
without mutation; SetTrDequeue resynchronizes the named ring (the u64
complement of `0xF` is `0xFFFFFFFFFFFFFFF0`); ResetDevice invokes the
device's `reset` and sets state Default; anything else is a TrbError. -/
def XhciDeviceSlot.handleCommand (s : XhciDeviceSlot) (trb : Trb) :
    XhciDeviceSlot × CompletionCode × Nat :=
  match trb.trbType with
  | some TrbType.AddressDevice =>
      ((s.setState SlotState.Addressed).setAddress 1,
        CompletionCode.Success, 0)
  | some TrbType.ConfigureEndpoint => (s, CompletionCode.Success, 0)
  | some TrbType.EvaluateContext => (s, CompletionCode.Success, 0)
  | some TrbType.ResetEndpoint => (s, CompletionCode.Success, 0)
  | some TrbType.StopEndpoint => (s, CompletionCode.Success, 0)
  | some TrbType.SetTrDequeue =>
      let epId := (trb.control >>> 16) &&& 0x1F
      match s.transferRings.getD epId none with
      | some ring =>
          ({ s with
             transferRings := s.transferRings.set epId
               (some (ring.setDequeuePtr
                 (trb.parameter &&& 0xFFFFFFFFFFFFFFF0)
                 (trb.parameter &&& 1 != 0))) },
            CompletionCode.Success, 0)
      | none => (s, CompletionCode.Success, 0)
  | some TrbType.ResetDevice =>
      let s1 :=
        match s.device with
        | some dev => { s with device := some dev.reset }
        | none => s
      (s1.setState SlotState.Default, CompletionCode.Success, 0)
  | _ => (s, CompletionCode.TrbError, 0)

-- ============================================================================

-- Controller (mod.rs)

-- ============================================================================

/-- xHCI error type (`XhciError`). -/
inductive XhciError where
  | InvalidPort
  | InvalidSlot
  | NoFreeSlots
  | DeviceNotFound
  | TransferFailed
  | CommandFailed
deriving DecidableEq

/-- xHCI Host Controller (`XhciController`); the optional guest-memory
handle (`mem`), unused by every modelled operation, is omitted. -/
structure XhciController where
  state : XhciState
  capRegs : CapabilityRegisters
  opRegs : OperationalRegisters
  rtRegs : RuntimeRegisters
  doorbells : List DoorbellRegister
  slots : List (Option XhciDeviceSlot)
  cmdRing : CommandRing
  eventRings : List EventRing
  addressBitmap : Nat
deriving DecidableEq

/-- Constructor `XhciController::new`: halted, `XHCI_MAX_SLOTS + 1`
doorbells and slot entries, `XHCI_MAX_INTRS` event rings, default
register banks (note the runtime bank's derived default carries no
interrupters), empty address bitmap. -/
def XhciController.mkNew : XhciController :=
  { state := XhciState.Halted,
    capRegs := CapabilityRegisters.mkNew XHCI_MAX_SLOTS XHCI_MAX_INTRS
      XHCI_MAX_PORTS,
    opRegs := OperationalRegisters.mkDefault,
    rtRegs := RuntimeRegisters.mkDefault,
    doorbells := List.replicate (XHCI_MAX_SLOTS + 1) { target := 0 },
    slots := List.replicate (XHCI_MAX_SLOTS + 1) none,
    cmdRing := CommandRing.new,
    eventRings := List.replicate XHCI_MAX_INTRS EventRing.new,
    addressBitmap := 0 }

/-- The `for addr in 1..=127` scan of
`XhciController::allocate_address`; `fuel` is the number of remaining
candidates starting at `addr`, and the free test is the source's
`bitmap & (1 << addr) == 0`. -/
def allocLoop (bitmap : Nat) : Nat → Nat → Option Nat × Nat
  | _, 0 => (none, bitmap)
  | addr, fuel + 1 =>
    if bitmap &&& (1 <<< addr) = 0 then (some addr, bitmap ||| (1 <<< addr))
    else allocLoop bitmap (addr + 1) fuel

/-- Method `XhciController::allocate_address`: first free address in
1..=127, marking it in the bitmap; `none` when exhausted. -/
def XhciController.allocateAddress (c : XhciController) :
    Option Nat × XhciController :=
  let r := allocLoop c.addressBitmap 1 127
  (r.1, { c with addressBitmap := r.2 })

/-- Method `XhciController::free_address`: clears the bit when
`addr > 0 && addr <= 127` (the u128 complement of `1 << addr` is
`(2^128 - 1) ^^^ (1 <<< addr)`); any other address is a no-op. -/
def XhciController.freeAddress (c : XhciController) (addr : Nat) :
    XhciController :=
  if 0 < addr ∧ addr ≤ 127 then
    { c with
      addressBitmap := c.addressBitmap &&& ((2 ^ 128 - 1) ^^^ (1 <<< addr)) }
  else c

/-- The enumerate-scan of `XhciController::find_free_slot`. -/
def findFreeSlotLoop :
    Nat → List (Option XhciDeviceSlot) → Except XhciError Nat
  | _, [] => Except.error XhciError.NoFreeSlots
  | i, s :: rest =>
    if 0 < i ∧ s.isNone then Except.ok i else findFreeSlotLoop (i + 1) rest

/-- Method `XhciController::find_free_slot`: lowest index ≥ 1 holding
no slot. -/
def XhciController.findFreeSlot (c : XhciController) : Except XhciError Nat :=
  findFreeSlotLoop 0 c.slots

/-- Method `XhciController::handle_command`: dispatch on the TRB type.
The embedded slot id is the `as u8` truncation of `control >> 24`. In
the AddressDevice arm an address is allocated from the bitmap (mutating
it) and handed to the slot handler, which — per device.rs — does not
consume it; the locked slot's mutation is written back to the table. -/
def XhciController.handleCommand (c : XhciController) (trb : Trb) :
    XhciController × CompletionCode × Nat :=
  match trb.trbType with
  | some TrbType.EnableSlot =>
      match c.findFreeSlot with
      | Except.ok slotId => (c, CompletionCode.Success, slotId)
      | Except.error _ => (c, CompletionCode.NoSlotsAvailable, 0)
  | some TrbType.DisableSlot =>
      let slotId := (trb.control >>> 24) % 256
      if slotId < c.slots.length then
        ({ c with slots := c.slots.set slotId none },
          CompletionCode.Success, slotId)
      else (c, CompletionCode.SlotNotEnabled, 0)
  | some TrbType.AddressDevice =>
      let slotId := (trb.control >>> 24) % 256
      match c.slots.getD slotId none with
      | some s =>
          let ac := c.allocateAddress
          let sr := s.handleCommand trb
          ({ ac.2 with slots := ac.2.slots.set slotId (some sr.1) },
            sr.2.1, slotId)
      | none => (c, CompletionCode.SlotNotEnabled, 0)
  | some TrbType.ConfigureEndpoint =>
      let slotId := (trb.control >>> 24) % 256
      match c.slots.getD slotId none with
      | some s =>
          let sr := s.handleCommand trb
          ({ c with slots := c.slots.set slotId (some sr.1) },
            sr.2.1, slotId)
      | none => (c, CompletionCode.SlotNotEnabled, 0)
  | some TrbType.Noop => (c, CompletionCode.Success, 0)
  | _ => (c, CompletionCode.TrbError, 0)

/-- The `event_rings.first_mut()` queueing step of
`process_command_ring`: queue onto interrupter 0's event ring when one
exists. -/
def XhciController.queueEventPrimary (c : XhciController) (event : Trb) :
    XhciController :=
  match c.eventRings with
  | [] => c
  | er :: rest => { c with eventRings := er.queue event :: rest }

/-- The `while let Some(trb) = self.cmd_ring.next()` loop of
`XhciController::process_command_ring`: pop a command, handle it, build
its completion event and queue the event on interrupter 0. `fuel`
bounds the iteration; no handler arm queues onto the command ring, so
the initial pending length is an exact bound. -/
def XhciController.processCommandLoop : XhciController → Nat → XhciController
  | c, 0 => c
  | c, fuel + 1 =>
    match c.cmdRing.next with
    | (none, _) => c
    | (some trb, ring) =>
      let c1 := { c with cmdRing := ring }
      let hr := c1.handleCommand trb
      let event := hr.1.cmdRing.createCompletionEvent trb hr.2.2 hr.2.1
      XhciController.processCommandLoop (hr.1.queueEventPrimary event) fuel

/-- Method `XhciController::process_command_ring`: drains the command
ring only while the controller state is Running. -/
def XhciController.processCommandRing (c : XhciController) : XhciController :=
  if c.state = XhciState.Running then
    c.processCommandLoop c.cmdRing.pending.length
  else c

/-- Method `XhciController::ring_doorbell`: records the doorbell
target; doorbell 0 drains the command ring, doorbell ≥ 1 forwards to
the slot's `ring_ep` (locking always succeeds in this model); absent
slots and out-of-range ids are no-ops. -/
def XhciController.ringDoorbell (c : XhciController) (slotId target : Nat) :
    XhciController :=
  if c.doorbells.length ≤ slotId then c
  else
    let c1 := { c with
      doorbells := c.doorbells.set slotId { target := target } }
    if slotId = 0 then c1.processCommandRing
    else
      match c1.slots.getD slotId none with
      | some s =>
          { c1 with slots := c1.slots.set slotId (some (s.ringEp target)) }
      | none => c1

/-- Method `XhciController::detach_device`: reads the slot's device
address, frees it in the bitmap, and clears the slot entry. -/
def XhciController.detachDevice (c : XhciController) (slotId : Nat) :
    Except XhciError XhciController :=
  if c.slots.length ≤ slotId ∨ slotId = 0 then
    Except.error XhciError.InvalidSlot
  else
    let addr :=
      match c.slots.getD slotId none with
      | some s => some s.address
      | none => none
    let c1 :=
      match addr with
      | some a => c.freeAddress a
      | none => c
    Except.ok { c1 with slots := c1.slots.set slotId none }

/-- Repeated calls to `XhciController::allocate_address`, collecting
the returned addresses in order. -/
def allocStream (c : XhciController) : Nat → List (Option Nat) × XhciController
  | 0 => ([], c)
  | n + 1 =>
    let r := c.allocateAddress
    let rest := allocStream r.2 n
    (r.1 :: rest.1, rest.2)

/-- Concrete Normal TRB for the endpoint-doorbell scenario. -/
def c3NormalTrb : Trb := (Trb.new 0x1000 8 0).setTrbType TrbType.Normal

/-- Concrete endpoint-1 transfer ring holding one pending Normal TRB. -/
def c3Ring : TransferRing :=
  ((TransferRing.new 1).init 0x30000 256).queue c3NormalTrb

/-- Concrete device slot 1 with an attached (invocation-counting)
device and the endpoint-1 ring above. -/
def c3Slot : XhciDeviceSlot :=
  { XhciDeviceSlot.mkNew 1 { resetCalls := 0, transferCalls := 0 } with
    transferRings := (List.replicate 32 none).set 1 (some c3Ring) }

/-- Concrete running controller with `c3Slot` installed at slot 1. -/
def c3Controller : XhciController :=
  { XhciController.mkNew with
    state := XhciState.Running,
    slots := XhciController.mkNew.slots.set 1 (some c3Slot) }

/-- Pending events of interrupter 0's event ring
(`event_rings.first()`); empty when no event ring exists. -/
def XhciController.primaryEvents (c : XhciController) : List Trb :=
  match c.eventRings with
  | [] => []
  | er :: _ => er.pending

/-- Parameter and TRB type of each event pending on interrupter 0. -/
def eventSig (c : XhciController) : List (Nat × Option TrbType) :=
  c.primaryEvents.map (fun e => (e.parameter, e.trbType))

/-- Modelled from the spec: the guest-physical address of the `idx`-th
TRB of a command ring starting at `base` (16 bytes per TRB). The
implementation's command queue carries TRBs by value and records no
such address; this definition exists only to state the claimed
parameter-equals-address correlation for comparison. -/
def specCommandTrbAddress (base idx : Nat) : Nat := base + 16 * idx

/-- Concrete running controller whose command ring (based at 0x10000)
holds one queued Noop command with parameter 0x42. -/
def c1Controller : XhciController :=
  { XhciController.mkNew with
    state := XhciState.Running,
    cmdRing := (CommandRing.new.init 0x10000 256).queue
      ((Trb.new 0x42 0 0).setTrbType TrbType.Noop) }

/-- C2: for every representable TRB (`parameter` a u64 value, `status`
and `control` u32 values), decoding the 16-byte little-endian encoding
returns the TRB unchanged: `Trb::from_bytes(&t.as_bytes()) == t`. -/
theorem trb_from_bytes_as_bytes_roundtrip (t : Trb)
    (hp : t.parameter < 18446744073709551616)
    (hs : t.status < 4294967296)
    (hc : t.control < 4294967296) :
    Trb.fromBytes (Trb.asBytes t) = t := by
  cases t with
  | mk parameter status control =>
    simp only [Trb.asBytes, Trb.fromBytes, List.getD, List.get?, Option.getD_some] at *
    simp only [Trb.mk.injEq]
    refine ⟨?_, ?_, ?_⟩ <;> omega

/-- Witness for C2 at a concrete TRB. -/
theorem trb_from_bytes_as_bytes_roundtrip_witness :
    Trb.fromBytes (Trb.asBytes (Trb.new 81985529216486895 3735928559 305419896))
      = Trb.new 81985529216486895 3735928559 305419896 :=
  trb_from_bytes_as_bytes_roundtrip
    (Trb.new 81985529216486895 3735928559 305419896)
    (by decide) (by decide) (by decide)

/-- C5: refuting evaluation — in a single-segment EventRing of size 16,
queuing 16 events leaves the producer cycle bit at `true` (it never
flips, because `queue` tests a `dequeue_idx` that it never advances),
and the 17th queued event is stamped with the unflipped bit, contrary
to the claimed single flip after `segment.size` events. -/
theorem eventRing_sixteen_queues_never_flip_cycle :
    (((fun r => EventRing.queue r (Trb.new 0 0 0))^[16]
        (EventRing.new.setSegments [EventRingSegment.new 0x20000 16])).cycle
      = true) ∧
    ((((fun r => EventRing.queue r (Trb.new 0 0 0))^[17]
        (EventRing.new.setSegments [EventRingSegment.new 0x20000 16])).pending.map
          Trb.cycleBit) = List.replicate 17 true) := by
  decide

/-- C7 counterexample: initialization with a null (zero) base and zero
size is not rejected — `CommandRing::init(0,0)` fully initializes the
ring and marks it Running, and `TransferRing::init(0,0)` likewise
installs the zero base and size. -/
theorem ring_init_accepts_zero_base_and_size :
    (CommandRing.new.init 0 0).state = CommandRingState.Running ∧
    (CommandRing.new.init 0 0).base = 0 ∧
    (CommandRing.new.init 0 0).size = 0 ∧
    ((TransferRing.new 1).init 0 0).base = 0 ∧
    ((TransferRing.new 1).init 0 0).size = 0 := by
  decide

/-- C7 amended: `CommandRing::init` and `TransferRing::init` accept any
base and size — including a zero size and a null base — unconditionally
installing them and resetting the cursors (enqueue, and dequeue for the
transfer ring, to the new base) and the cycle state (cycle, pcs, ccs to
true); the command ring also enters Running. And on every ring kind
(command, event, transfer) with an empty pending queue, `next()`
returns `none` with the ring unchanged, without blocking. -/
theorem ring_init_unchecked_and_next_empty_none
    (base size : Nat) (r : CommandRing) (er : EventRing) (tr : TransferRing)
    (hr : r.pending = []) (he : er.pending = []) (ht : tr.pending = []) :
    (r.init base size).state = CommandRingState.Running ∧
    (r.init base size).base = base ∧ (r.init base size).size = size ∧
    (r.init base size).enqueue = base ∧ (r.init base size).cycle = true ∧
    (tr.init base size).base = base ∧ (tr.init base size).size = size ∧
    (tr.init base size).enqueue = base ∧ (tr.init base size).dequeue = base ∧
    (tr.init base size).pcs = true ∧ (tr.init base size).ccs = true ∧
    r.next = (none, r) ∧ er.next = (none, er) ∧ tr.next = (none, tr) := by
  refine ⟨rfl, rfl, rfl, rfl, rfl, rfl, rfl, rfl, rfl, rfl, rfl, ?_, ?_, ?_⟩ <;>
    simp [CommandRing.next, EventRing.next, TransferRing.next, hr, he, ht]

/-- Witness for the C7 amended theorem at concrete rings. -/
theorem ring_init_unchecked_and_next_empty_none_witness :
    (CommandRing.new.init 0x10000 256).state = CommandRingState.Running ∧
    (CommandRing.new.init 0x10000 256).base = 0x10000 ∧
    (CommandRing.new.init 0x10000 256).size = 256 ∧
    (CommandRing.new.init 0x10000 256).enqueue = 0x10000 ∧
    (CommandRing.new.init 0x10000 256).cycle = true ∧
    ((TransferRing.new 1).init 0x10000 256).base = 0x10000 ∧
    ((TransferRing.new 1).init 0x10000 256).size = 256 ∧
    ((TransferRing.new 1).init 0x10000 256).enqueue = 0x10000 ∧
    ((TransferRing.new 1).init 0x10000 256).dequeue = 0x10000 ∧
    ((TransferRing.new 1).init 0x10000 256).pcs = true ∧
    ((TransferRing.new 1).init 0x10000 256).ccs = true ∧
    CommandRing.new.next = (none, CommandRing.new) ∧
    EventRing.new.next = (none, EventRing.new) ∧
    (TransferRing.new 1).next = (none, TransferRing.new 1) :=
  ring_init_unchecked_and_next_empty_none 0x10000 256 CommandRing.new
    EventRing.new (TransferRing.new 1) rfl rfl rfl

/-- C8: refuting evaluation — writing 0 (bit 0 clear, bit 1 clear) to
IMAN with prior value 3 (IP and IE both set) yields 2: the pending bit
IP is cleared even though the written value has bit 0 clear, and the
enable bit IE stays set even though the written value has bit 1 clear.
The claimed write-1-to-clear IP / plain-RW IE semantics would yield 1. -/
theorem iman_write_clears_ip_unconditionally :
    (InterrupterRegister.write
      { iman := 3, imod := 0, erstsz := 0, erstba := 0, erdp := 0 }
      0x00 0).iman = 2 ∧
    Nat.testBit (InterrupterRegister.write
      { iman := 3, imod := 0, erstsz := 0, erstba := 0, erdp := 0 }
      0x00 0).iman 0 = false ∧
    Nat.testBit (InterrupterRegister.write
      { iman := 3, imod := 0, erstsz := 0, erstba := 0, erdp := 0 }
      0x00 0).iman 1 = true := by
  decide

/-- Helper: replacing a list entry by the value already stored there is
the identity. -/
theorem list_set_self {α : Type} (l : List α) (i : Nat) (p : α)
    (h : l[i]? = some p) : l.set i p = l := by
  induction l generalizing i with
  | nil => simp at h
  | cons a t ih =>
    cases i with
    | zero =>
      simp only [List.getElem?_cons_zero, Option.some.injEq] at h
      simp [h]
    | succ n =>
      simp only [List.getElem?_cons_succ] at h
      simp [List.set, ih n h]

/-- Helper: a port-register read at an offset with no arm returns 0. -/
theorem portRegister_read_unmapped (p : PortRegister) (off : Nat)
    (h0 : off ≠ 0x00) (h4 : off ≠ 0x04) (h8 : off ≠ 0x08) :
    p.read off = 0 := by
  rw [PortRegister.read, if_neg h0, if_neg h4, if_neg h8]

/-- Helper: a port-register write at an offset with no arm is a no-op. -/
theorem portRegister_write_unmapped (p : PortRegister) (off v : Nat)
    (h0 : off ≠ 0x00) (h4 : off ≠ 0x04) (h8 : off ≠ 0x08) :
    p.write off v = p := by
  rw [PortRegister.write, if_neg h0, if_neg h4, if_neg h8]

/-- Helper: an interrupter read at an offset with no arm returns 0. -/
theorem interrupter_read_unmapped (r : InterrupterRegister) (off : Nat)
    (h0 : off ≠ 0x00) (h4 : off ≠ 0x04) (h8 : off ≠ 0x08)
    (h10 : off ≠ 0x10) (h18 : off ≠ 0x18) :
    r.read off = 0 := by
  rw [InterrupterRegister.read, if_neg h0, if_neg h4, if_neg h8,
    if_neg h10, if_neg h18]

/-- Helper: an interrupter write at an offset with no arm is a no-op. -/
theorem interrupter_write_unmapped (r : InterrupterRegister) (off v : Nat)
    (h0 : off ≠ 0x00) (h4 : off ≠ 0x04) (h8 : off ≠ 0x08)
    (h10 : off ≠ 0x10) (h18 : off ≠ 0x18) :
    r.write off v = r := by
  rw [InterrupterRegister.write, if_neg h0, if_neg h4, if_neg h8,
    if_neg h10, if_neg h18]

/-- C9: register-bank access is total and never panics — for every
offset and value, a read at an offset that maps to no register
(out-of-range port and interrupter indices included) returns 0, and a
write at such an offset leaves the bank and the controller state
unchanged, in both the operational and the runtime bank. -/
theorem regbank_unmapped_read_zero_write_noop
    (op : OperationalRegisters) (st : XhciState) (rt : RuntimeRegisters)
    (offset value : Nat)
    (hop : opRegisterAt op.ports.length offset = false)
    (hrt : rtRegisterAt rt.interrupters.length offset = false) :
    op.read offset = 0 ∧ op.write offset value st = (op, st) ∧
    rt.read offset = 0 ∧ rt.write offset value = rt := by
  rw [opRegisterAt, decide_eq_false_iff_not] at hop
  rw [rtRegisterAt, decide_eq_false_iff_not] at hrt
  refine ⟨?_, ?_, ?_, ?_⟩
  · rw [OperationalRegisters.read]
    split_ifs with h1 h2 h3 h4 h5 h6 h7 h8
    · exact absurd (by omega) hop
    · exact absurd (by omega) hop
    · exact absurd (by omega) hop
    · exact absurd (by omega) hop
    · exact absurd (by omega) hop
    · exact absurd (by omega) hop
    · exact absurd (by omega) hop
    · cases hp : op.ports[(offset - 0x400) / 0x10]? with
      | none => rfl
      | some p =>
          have hlt : (offset - 0x400) / 0x10 < op.ports.length := by
            rcases List.getElem?_eq_some.mp hp with ⟨hl, _⟩
            exact hl
          refine portRegister_read_unmapped p _ ?_ ?_ ?_ <;>
            (intro hc; exact hop (by omega))
    · rfl
  · rw [OperationalRegisters.write]
    split_ifs with h1 h2 h3 h4 h5 h6 h7
    · exact absurd (by omega) hop
    · exact absurd (by omega) hop
    · exact absurd (by omega) hop
    · exact absurd (by omega) hop
    · exact absurd (by omega) hop
    · exact absurd (by omega) hop
    · cases hp : op.ports[(offset - 0x400) / 0x10]? with
      | none => rfl
      | some p =>
          have hlt : (offset - 0x400) / 0x10 < op.ports.length := by
            rcases List.getElem?_eq_some.mp hp with ⟨hl, _⟩
            exact hl
          have hw : p.write ((offset - 0x400) % 0x10) value = p := by
            refine portRegister_write_unmapped p _ value ?_ ?_ ?_ <;>
              (intro hc; exact hop (by omega))
          simp only [hw, list_set_self _ _ _ hp]
    · rfl
  · rw [RuntimeRegisters.read]
    split_ifs with h1 h2
    · exact absurd (by omega) hrt
    · cases hp : rt.interrupters[(offset - 0x20) / 0x20]? with
      | none => rfl
      | some i =>
          have hlt : (offset - 0x20) / 0x20 < rt.interrupters.length := by
            rcases List.getElem?_eq_some.mp hp with ⟨hl, _⟩
            exact hl
          refine interrupter_read_unmapped i _ ?_ ?_ ?_ ?_ ?_ <;>
            (intro hc; exact hrt (by omega))
    · rfl
  · rw [RuntimeRegisters.write]
    split_ifs with h1 h2
    · exact absurd (by omega) hrt
    · cases hp : rt.interrupters[(offset - 0x20) / 0x20]? with
      | none => rfl
      | some i =>
          have hlt : (offset - 0x20) / 0x20 < rt.interrupters.length := by
            rcases List.getElem?_eq_some.mp hp with ⟨hl, _⟩
            exact hl
          have hw : i.write ((offset - 0x20) % 0x20) value = i := by
            refine interrupter_write_unmapped i _ value ?_ ?_ ?_ ?_ ?_ <;>
              (intro hc; exact hrt (by omega))
          simp only [hw, list_set_self _ _ _ hp]
    · rfl

/-- Witness for C9 at offset 0x18 (between CRCR and DCBAAP in the
operational bank; below the interrupter window in the runtime bank)
on the default banks. -/
theorem regbank_unmapped_read_zero_write_noop_witness :
    OperationalRegisters.mkDefault.read 0x18 = 0 ∧
    OperationalRegisters.mkDefault.write 0x18 0xDEAD XhciState.Halted
      = (OperationalRegisters.mkDefault, XhciState.Halted) ∧
    RuntimeRegisters.mkDefault.read 0x18 = 0 ∧
    RuntimeRegisters.mkDefault.write 0x18 0xDEAD
      = RuntimeRegisters.mkDefault :=
  regbank_unmapped_read_zero_write_noop OperationalRegisters.mkDefault
    XhciState.Halted RuntimeRegisters.mkDefault 0x18 0xDEAD
    (by decide) (by decide)

/-- C6: on a fresh controller the first 127 allocations return
`some 1, …, some 127` in order and the 128th returns `none`; freeing
address 50 afterwards makes the very next allocation return 50 (the
lowest free address); freeing 0 or any address above 127 leaves the
bitmap unchanged, so an allocation on a fresh controller after such
frees still returns `some 1`. -/
theorem allocate_free_address_discipline
    (c : XhciController) (a : Nat) (ha : a = 0 ∨ 128 ≤ a) :
    c.freeAddress a = c ∧
    (allocStream XhciController.mkNew 128).1
      = (List.range 127).map (fun i => some (i + 1)) ++ [none] ∧
    (((allocStream XhciController.mkNew 127).2.freeAddress 50).allocateAddress).1
      = some 50 ∧
    (((XhciController.mkNew.freeAddress 0).freeAddress 200).allocateAddress).1
      = some 1 := by
  refine ⟨?_, by decide, by decide, by decide⟩
  rw [XhciController.freeAddress, if_neg]
  omega

/-- Witness for C6 at a fresh controller and the out-of-range
address 0. -/
theorem allocate_free_address_discipline_witness :
    XhciController.mkNew.freeAddress 0 = XhciController.mkNew ∧
    (allocStream XhciController.mkNew 128).1
      = (List.range 127).map (fun i => some (i + 1)) ++ [none] ∧
    (((allocStream XhciController.mkNew 127).2.freeAddress 50).allocateAddress).1
      = some 50 ∧
    (((XhciController.mkNew.freeAddress 0).freeAddress 200).allocateAddress).1
      = some 1 :=
  allocate_free_address_discipline XhciController.mkNew 0 (Or.inl rfl)

/-- C10: a DisableSlot command whose embedded slot id (the `as u8`
truncation of `control >> 24`) is below 33 clears that slot-table
entry — slot 0 and already-empty entries included — and completes with
Success carrying the id, while every other controller component, the
device-address bitmap in particular, is left unchanged. -/
theorem disable_slot_clears_entry_keeps_bitmap
    (c : XhciController) (trb : Trb)
    (htype : trb.trbType = some TrbType.DisableSlot)
    (hlen : c.slots.length = 33)
    (hsid : (trb.control >>> 24) % 256 < 33) :
    c.handleCommand trb =
      ({ c with slots := c.slots.set ((trb.control >>> 24) % 256) none },
        CompletionCode.Success, (trb.control >>> 24) % 256) := by
  simp only [XhciController.handleCommand, htype]
  rw [if_pos (by omega)]

/-- Witness for C10: disabling the (empty) slot 7 of a fresh
controller. -/
theorem disable_slot_clears_entry_keeps_bitmap_witness :
    XhciController.mkNew.handleCommand (Trb.new 0 0 (7 <<< 24 ||| (10 <<< 10)))
      = ({ XhciController.mkNew with
            slots := XhciController.mkNew.slots.set 7 none },
          CompletionCode.Success, 7) :=
  disable_slot_clears_entry_keeps_bitmap XhciController.mkNew
    (Trb.new 0 0 (7 <<< 24 ||| (10 <<< 10))) (by decide) (by decide) (by decide)

/-- C3: refuting evaluation — with one Normal TRB pending on slot 1's
endpoint-1 ring, `ring_doorbell(1,1)` empties the ring's pending queue
but invokes the device's `handle_transfer` zero times (its invocation
count stays 0) and posts zero TransferEvents (every event ring stays
empty), because the drain loop in `ring_ep` has an empty body. -/
theorem ring_ep_drains_without_handler_or_events :
    (((c3Controller.ringDoorbell 1 1).slots.getD 1 none).map
        (fun s => (s.transferRings.getD 1 none).map TransferRing.pending))
      = some (some []) ∧
    (((c3Controller.ringDoorbell 1 1).slots.getD 1 none).map
        XhciDeviceSlot.device)
      = some (some { resetCalls := 0, transferCalls := 0 }) ∧
    ((c3Controller.ringDoorbell 1 1).eventRings.map EventRing.pending)
      = List.replicate 8 [] ∧
    c3Ring.pending = [c3NormalTrb] := by
  decide

/-- Helper: overwriting the low nibble of a packed byte. -/
theorem land_lor_low_nibble (a k : Nat) (hk : k < 16) :
    ((a &&& 0xF0) ||| k) &&& 0x0F = k := by
  apply Nat.eq_of_testBit_eq
  intro i
  simp only [Nat.testBit_land, Nat.testBit_lor]
  rcases Nat.lt_or_ge i 4 with h4 | h4
  · interval_cases i <;>
      simp [show Nat.testBit 240 0 = false from by decide,
        show Nat.testBit 15 0 = true from by decide,
        show Nat.testBit 240 1 = false from by decide,
        show Nat.testBit 15 1 = true from by decide,
        show Nat.testBit 240 2 = false from by decide,
        show Nat.testBit 15 2 = true from by decide,
        show Nat.testBit 240 3 = false from by decide,
        show Nat.testBit 15 3 = true from by decide]
  · have h15 : Nat.testBit 15 i = false := by
      apply Nat.testBit_lt_two_pow
      calc (15 : Nat) < 16 := by norm_num
        _ ≤ 2 ^ i := by
          have h16 : (16 : Nat) = 2 ^ 4 := by norm_num
          rw [h16]
          exact Nat.pow_le_pow_right (by norm_num) h4
    have hki : Nat.testBit k i = false := by
      apply Nat.testBit_lt_two_pow
      calc k < 16 := hk
        _ ≤ 2 ^ i := by
          have h16 : (16 : Nat) = 2 ^ 4 := by norm_num
          rw [h16]
          exact Nat.pow_le_pow_right (by norm_num) h4
    simp [h15, hki]

/-- Helper: `SlotContext::set_state` followed by `state` recovers the
written state, for every prior register content. -/
theorem slotContext_state_setState (c : SlotContext) (st : SlotState) :
    (c.setState st).state = st := by
  have h : (c.setState st).slotState &&& 0x0F = st.toNat := by
    cases st <;> exact land_lor_low_nibble c.slotState _ (by decide)
  unfold SlotContext.state
  rw [h]
  cases st <;> rfl

/-- Helper: `set_device_address` does not change the decoded state. -/
theorem slotContext_state_setDeviceAddress (c : SlotContext) (a : Nat) :
    (c.setDeviceAddress a).state = c.state := rfl

/-- C4 counterexample: (i) handling EnableSlot on a fresh controller
creates no slot context — every slot-table entry stays empty, so no
slot reaches Default; (ii) at the slot level, ConfigureEndpoint on an
Addressed slot completes with Success but leaves the state Addressed
rather than Configured; (iii) AddressDevice assigns the constant
address 1 to every slot rather than a freshly allocated one — two
distinct slots both end up with address 1. -/
theorem slot_command_state_machine_counterexample :
    ((XhciController.mkNew.handleCommand
        ((Trb.new 0 0 0).setTrbType TrbType.EnableSlot)).1.slots
      = List.replicate 33 none) ∧
    ((((XhciDeviceSlot.mkNew 1 { resetCalls := 0, transferCalls := 0 }).handleCommand
        ((Trb.new 0 0 0).setTrbType TrbType.AddressDevice)).1.handleCommand
        ((Trb.new 0 0 0).setTrbType TrbType.ConfigureEndpoint)).1.state
      = SlotState.Addressed ∧
      SlotState.Addressed ≠ SlotState.Configured) ∧
    (((XhciDeviceSlot.mkNew 1 { resetCalls := 0, transferCalls := 0 }).handleCommand
        ((Trb.new 0 0 0).setTrbType TrbType.AddressDevice)).1.address = 1 ∧
      ((XhciDeviceSlot.mkNew 2 { resetCalls := 0, transferCalls := 0 }).handleCommand
        ((Trb.new 0 0 0).setTrbType TrbType.AddressDevice)).1.address = 1) := by
  decide

/-- C4 amended: EnableSlot leaves the whole controller unchanged — it
creates no slot context and drives no slot to Default — and completes
with Success carrying the free slot id whenever `find_free_slot`
reports one; at the slot level, AddressDevice transitions the slot to
Addressed with the fixed (nonzero) address 1 regardless of the
allocator, ConfigureEndpoint completes with Success leaving the slot
untouched (never Configured), and ResetDevice sets the slot state to
Default (proved from every prior state, hence from any non-Disabled
state) while invoking the attached device's `reset` exactly once per
command. -/
theorem slot_command_state_machine_amended
    (c : XhciController) (s : XhciDeviceSlot) (dev : UsbDev)
    (te ta tc tr : Trb)
    (hte : te.trbType = some TrbType.EnableSlot)
    (hta : ta.trbType = some TrbType.AddressDevice)
    (htc : tc.trbType = some TrbType.ConfigureEndpoint)
    (htr : tr.trbType = some TrbType.ResetDevice)
    (hdev : s.device = some dev) :
    ((c.handleCommand te).1 = c ∧
      ∀ sid, c.findFreeSlot = Except.ok sid →
        (c.handleCommand te).2 = (CompletionCode.Success, sid)) ∧
    ((s.handleCommand ta).1.state = SlotState.Addressed ∧
      (s.handleCommand ta).1.address = 1 ∧
      (s.handleCommand ta).2.1 = CompletionCode.Success) ∧
    ((s.handleCommand tc).1 = s ∧
      (s.handleCommand tc).2.1 = CompletionCode.Success) ∧
    ((s.handleCommand tr).1.state = SlotState.Default ∧
      (s.handleCommand tr).1.device = some dev.reset ∧
      (s.handleCommand tr).2.1 = CompletionCode.Success) := by
  refine ⟨⟨?_, ?_⟩, ⟨?_, ?_, ?_⟩, ⟨?_, ?_⟩, ⟨?_, ?_, ?_⟩⟩
  · simp only [XhciController.handleCommand, hte]
    cases hfs : c.findFreeSlot <;> rfl
  · intro sid hsid
    simp only [XhciController.handleCommand, hte, hsid]
  · simp only [XhciDeviceSlot.handleCommand, hta]
    show ((s.context.slot.setState SlotState.Addressed).setDeviceAddress 1).state
      = SlotState.Addressed
    rw [slotContext_state_setDeviceAddress, slotContext_state_setState]
  · simp [XhciDeviceSlot.handleCommand, hta]
    rfl
  · simp [XhciDeviceSlot.handleCommand, hta]
  · simp [XhciDeviceSlot.handleCommand, htc]
  · simp [XhciDeviceSlot.handleCommand, htc]
  · simp only [XhciDeviceSlot.handleCommand, htr, hdev]
    show (s.context.slot.setState SlotState.Default).state = SlotState.Default
    rw [slotContext_state_setState]
  · simp [XhciDeviceSlot.handleCommand, htr, hdev, XhciDeviceSlot.setState]
  · simp [XhciDeviceSlot.handleCommand, htr, hdev]

/-- Witness for the C4 amended theorem at a fresh controller and a
fresh slot (projecting its EnableSlot no-mutation conjunct). -/
theorem slot_command_state_machine_amended_witness :
    (XhciController.mkNew.handleCommand
        ((Trb.new 0 0 0).setTrbType TrbType.EnableSlot)).1
      = XhciController.mkNew :=
  (slot_command_state_machine_amended XhciController.mkNew
    (XhciDeviceSlot.mkNew 1 { resetCalls := 0, transferCalls := 0 })
    { resetCalls := 0, transferCalls := 0 }
    ((Trb.new 0 0 0).setTrbType TrbType.EnableSlot)
    ((Trb.new 0 0 0).setTrbType TrbType.AddressDevice)
    ((Trb.new 0 0 0).setTrbType TrbType.ConfigureEndpoint)
    ((Trb.new 0 0 0).setTrbType TrbType.ResetDevice)
    (by decide) (by decide) (by decide) (by decide) (by decide)).1.1

/-- Helper: `EventRing::queue` appends exactly the cycle-stamped event
to the pending queue, whatever the segment bookkeeping does. -/
theorem eventRing_queue_pending (r : EventRing) (e : Trb) :
    (r.queue e).pending = r.pending ++ [e.setCycleBit r.cycle] := by
  cases h : r.segments[r.segmentIdx]? with
  | none => simp [EventRing.queue, h]
  | some seg =>
      by_cases hc : seg.size - 1 ≤ r.dequeueIdx <;>
        simp [EventRing.queue, h, hc]

/-- Helper: `create_completion_event` spelled out as an explicit
record (structural unfolding only). -/
theorem createCompletionEvent_eq (cr : CommandRing) (t : Trb) (sid : Nat)
    (code : CompletionCode) :
    cr.createCompletionEvent t sid code
      = { parameter := t.parameter,
          status := ((0 &&& 0x00FFFFFF) ||| (code.toNat <<< 24)) ||| sid,
          control := ((0 &&& 0xFFFF03FF) ||| (33 <<< 10)) ||| 1 } := rfl

/-- Helper: a cycle-stamped command-completion event keeps the
originating command's parameter and the CommandCompletion type. -/
theorem completion_event_signature (cr : CommandRing) (t : Trb) (sid : Nat)
    (code : CompletionCode) (b : Bool) :
    ((cr.createCompletionEvent t sid code).setCycleBit b).parameter
        = t.parameter ∧
    ((cr.createCompletionEvent t sid code).setCycleBit b).trbType
        = some TrbType.CommandCompletion := by
  rw [createCompletionEvent_eq]
  cases b
  · refine ⟨rfl, ?_⟩
    show TrbType.tryFrom
        ((((((0 &&& 0xFFFF03FF) ||| (33 <<< 10)) ||| 1) &&& 0xFFFFFFFE) >>> 10)
          &&& 0x3F)
      = some TrbType.CommandCompletion
    decide
  · refine ⟨rfl, ?_⟩
    show TrbType.tryFrom
        ((((((0 &&& 0xFFFF03FF) ||| (33 <<< 10)) ||| 1) ||| 1) >>> 10) &&& 0x3F)
      = some TrbType.CommandCompletion
    decide

/-- Helper: `handle_command` never touches the command ring. -/
theorem handleCommand_cmdRing (c : XhciController) (t : Trb) :
    (c.handleCommand t).1.cmdRing = c.cmdRing := by
  unfold XhciController.handleCommand
  split <;> (try simp only []) <;> (try split) <;>
    simp [XhciController.allocateAddress]

/-- Helper: `handle_command` never touches the event rings. -/
theorem handleCommand_eventRings (c : XhciController) (t : Trb) :
    (c.handleCommand t).1.eventRings = c.eventRings := by
  unfold XhciController.handleCommand
  split <;> (try simp only []) <;> (try split) <;>
    simp [XhciController.allocateAddress]

/-- Helper: queueing on the primary interrupter leaves the command ring
unchanged. -/
theorem queueEventPrimary_cmdRing (c : XhciController) (e : Trb) :
    (c.queueEventPrimary e).cmdRing = c.cmdRing := by
  unfold XhciController.queueEventPrimary
  split <;> rfl

/-- Helper: queueing on the primary interrupter keeps the event-ring
list nonempty. -/
theorem queueEventPrimary_ne_nil (c : XhciController) (e : Trb)
    (h : c.eventRings ≠ []) :
    (c.queueEventPrimary e).eventRings ≠ [] := by
  unfold XhciController.queueEventPrimary
  cases her : c.eventRings with
  | nil => exact absurd her h
  | cons er rest => simp

/-- Helper: the interrupter-0 signature after queueing an event is the
old signature extended with the stamped event's signature, for some
stamp bit. -/
theorem queueEventPrimary_eventSig (c : XhciController) (e : Trb)
    (h : c.eventRings ≠ []) :
    ∃ b : Bool, eventSig (c.queueEventPrimary e)
      = eventSig c
        ++ [((e.setCycleBit b).parameter, (e.setCycleBit b).trbType)] := by
  cases her : c.eventRings with
  | nil => exact absurd her h
  | cons er rest =>
      refine ⟨er.cycle, ?_⟩
      unfold eventSig XhciController.primaryEvents XhciController.queueEventPrimary
      rw [her]
      simp [eventRing_queue_pending]

/-- Helper: the interrupter-0 signature depends only on the event-ring
list. -/
theorem eventSig_congr (c d : XhciController) (h : c.eventRings = d.eventRings) :
    eventSig c = eventSig d := by
  unfold eventSig XhciController.primaryEvents
  rw [h]

/-- Helper: the command-processing loop, with enough fuel, consumes
every pending command and appends to interrupter 0 exactly one
CommandCompletion signature per command, in order, carrying the
command's parameter. -/
theorem processCommandLoop_events (fuel : Nat) :
    ∀ c : XhciController, c.eventRings ≠ [] →
      c.cmdRing.pending.length ≤ fuel →
      (c.processCommandLoop fuel).cmdRing.pending = [] ∧
      eventSig (c.processCommandLoop fuel)
        = eventSig c ++ c.cmdRing.pending.map
            (fun t => (t.parameter, some TrbType.CommandCompletion)) := by
  induction fuel with
  | zero =>
      intro c hne hlen
      have hnil : c.cmdRing.pending = [] := by
        cases hp : c.cmdRing.pending with
        | nil => rfl
        | cons t rest => rw [hp] at hlen; simp at hlen
      rw [XhciController.processCommandLoop]
      simp [hnil]
  | succ n ih =>
      intro c hne hlen
      cases hp : c.cmdRing.pending with
      | nil =>
          have hn : c.cmdRing.next = (none, c.cmdRing) := by
            unfold CommandRing.next
            rw [hp]
          rw [XhciController.processCommandLoop, hn]
          simp [hp]
      | cons t rest =>
          have hn : c.cmdRing.next
              = (some t, { c.cmdRing with pending := rest }) := by
            unfold CommandRing.next
            rw [hp]
          rw [XhciController.processCommandLoop, hn]
          simp only []
          set c1 : XhciController := { c with cmdRing := { c.cmdRing with pending := rest } } with hc1
          set hr := c1.handleCommand t with hhr
          set event := hr.1.cmdRing.createCompletionEvent t hr.2.2 hr.2.1 with hev
          set c2 := hr.1.queueEventPrimary event with hc2
          have hev1 : hr.1.eventRings = c.eventRings := by
            rw [hhr]
            exact handleCommand_eventRings c1 t
          have hne1 : hr.1.eventRings ≠ [] := by rw [hev1]; exact hne
          have hne2 : c2.eventRings ≠ [] := queueEventPrimary_ne_nil hr.1 event hne1
          have hcr2 : c2.cmdRing = { c.cmdRing with pending := rest } := by
            rw [hc2, queueEventPrimary_cmdRing, hhr, handleCommand_cmdRing]
          have hlen2 : c2.cmdRing.pending.length ≤ n := by
            rw [hcr2]
            have := hlen
            rw [hp] at this
            simpa using Nat.le_of_succ_le_succ this
          obtain ⟨hdone, hsig⟩ := ih c2 hne2 hlen2
          refine ⟨by rw [hdone], ?_⟩
          rw [hsig]
          obtain ⟨b, hb⟩ := queueEventPrimary_eventSig hr.1 event hne1
          have hstamp := completion_event_signature hr.1.cmdRing t hr.2.2 hr.2.1 b
          rw [hc2, hb, eventSig_congr hr.1 c (by rw [hev1]),
            hstamp.1, hstamp.2, hcr2]
          simp [hp, List.append_assoc]
  -- end

/-- C1 amended: ringing doorbell 0 while the controller is Running
consumes every queued command from the command ring and posts exactly
one CommandCompletion event per consumed command on interrupter 0's
event ring, in submission order, each completion's `parameter` equal to
the originating command TRB's `parameter` field (the implementation's
sole correlation value — queued command TRBs carry no guest address). -/
theorem command_doorbell_posts_one_completion_per_command
    (c : XhciController) (target : Nat)
    (hrun : c.state = XhciState.Running)
    (hdb : 0 < c.doorbells.length)
    (hev : c.eventRings ≠ []) :
    (c.ringDoorbell 0 target).cmdRing.pending = [] ∧
    eventSig (c.ringDoorbell 0 target)
      = eventSig c ++ c.cmdRing.pending.map
          (fun t => (t.parameter, some TrbType.CommandCompletion)) := by
  unfold XhciController.ringDoorbell
  rw [if_neg (by omega), if_pos rfl]
  unfold XhciController.processCommandRing
  set c1 : XhciController :=
    { c with doorbells := c.doorbells.set 0 { target := target } } with hc1
  rw [if_pos (show c1.state = XhciState.Running from hrun)]
  have hne1 : c1.eventRings ≠ [] := hev
  obtain ⟨hdone, hsig⟩ :=
    processCommandLoop_events c1.cmdRing.pending.length c1 hne1 (Nat.le_refl _)
  refine ⟨hdone, ?_⟩
  rw [hsig, eventSig_congr c1 c rfl]

/-- C1 counterexample: with a single command queued on a ring based at
0x10000 and carrying parameter 0x42, the posted completion's
`parameter` is 0x42 — the command's parameter field — and not the
TRB's ring address 0x10000 (= base + 16·0) claimed by the spec. -/
theorem completion_parameter_is_not_trb_address :
    ((c1Controller.ringDoorbell 0 0).primaryEvents.map Trb.parameter
      = [0x42]) ∧
    specCommandTrbAddress 0x10000 0 = 0x10000 ∧
    (0x42 : Nat) ≠ 0x10000 := by
  decide

/-- Witness for the C1 amended theorem: a running controller with an
empty command queue drains to an empty queue (projected first
conjunct). -/
theorem command_doorbell_posts_one_completion_per_command_witness :
    (({ XhciController.mkNew with
          state := XhciState.Running } : XhciController).ringDoorbell 0 0).cmdRing.pending
      = [] :=
  (command_doorbell_posts_one_completion_per_command
    { XhciController.mkNew with state := XhciState.Running } 0
    rfl (by decide) (by decide)).1

end Xhci
